import Mathlib

/-!
Verification of the starship simulation in `src/main.rs`.

The program is a single-entity 2D ship simulation driven by per-frame
systems: `rotate_ship_system` (heading), `velocity_system` (position with
screen wraparound) and `engine_system` (thrust, velocity and fuel).
We embed the three systems as pure transition functions on a `Ship`
record, with `f32` arithmetic modelled over the reals and the quaternion
z-rotation of the `Transform` modelled as an accumulated heading angle
(the source only ever composes z-rotations and reads back the z Euler
angle, so this is exact up to the 2π equivalence of angles).
-/

/-- The keyboard signals polled each tick: Left, Right and Up arrows. -/
structure Inputs where
  left : Bool
  right : Bool
  up : Bool

/-- The ship entity: `Starship.rotation_speed`, the z-rotation and
translation of its `Transform`, its `Velocity` and its `Engine`. -/
@[ext]
structure Ship where
  rotation_speed : ℝ
  heading : ℝ
  px : ℝ
  py : ℝ
  vx : ℝ
  vy : ℝ
  fuel : ℝ
  thrust : ℝ

/-- The ship spawned by `setup`: rotation speed 1, centred, at rest,
fuel 100, thrust 100. -/
noncomputable def ship0 : Ship :=
  { rotation_speed := 1, heading := 0, px := 0, py := 0,
    vx := 0, vy := 0, fuel := 100, thrust := 100 }

/-- `rotate_ship_system` (src/main.rs lines 71–88): if Left is pressed,
compose the rotation with a z-rotation by `dt * rotation_speed`; else if
Right is pressed, by `dt * -rotation_speed`. -/
noncomputable def rotate_ship_system (dt : ℝ) (inp : Inputs) (s : Ship) : Ship :=
  if inp.left then
    { s with heading := s.heading + dt * s.rotation_speed }
  else if inp.right then
    { s with heading := s.heading + dt * -s.rotation_speed }
  else
    s

/-- `velocity_system` (src/main.rs lines 91–121): advance the translation
by `velocity * dt`, then wrap each axis once against the window
half-extent, checking the lower bound first as the source does. -/
noncomputable def velocity_system (dt w h : ℝ) (s : Ship) : Ship :=
  let x0 := s.px + s.vx * dt
  let y0 := s.py + s.vy * dt
  let x1 := if x0 < -w / 2 then x0 + w else if x0 > w / 2 then x0 - w else x0
  let y1 := if y0 < -h / 2 then y0 + h else if y0 > h / 2 then y0 - h else y0
  { s with px := x1, py := y1 }

/-- `f32::clamp` as used on line 141: clamp `x` into `[lo, hi]`. -/
noncomputable def clamp (x lo hi : ℝ) : ℝ :=
  if x < lo then lo else if x > hi then hi else x

/-- `engine_system` (src/main.rs lines 124–144): when Up is pressed and
fuel is positive, accelerate along `(-sin heading, cos heading)` by
`thrust * dt`, burn `thrust * dt` of fuel, and clamp fuel to `[0, 1000]`. -/
noncomputable def engine_system (dt : ℝ) (inp : Inputs) (s : Ship) : Ship :=
  if inp.up ∧ s.fuel > 0 then
    { s with
      vx := s.vx - s.thrust * dt * Real.sin s.heading
      vy := s.vy + s.thrust * dt * Real.cos s.heading
      fuel := clamp (s.fuel - s.thrust * dt) 0 1000 }
  else
    s

/-- One frame tick: the elapsed time, the window extent and the polled
inputs for that frame. -/
structure Tick where
  dt : ℝ
  w : ℝ
  h : ℝ
  inp : Inputs

/-- One full frame: the three `Update` systems applied in their
registration order (rotate, velocity, engine). -/
noncomputable def tick (t : Tick) (s : Ship) : Ship :=
  engine_system t.dt t.inp (velocity_system t.dt t.w t.h (rotate_ship_system t.dt t.inp s))

/-- Run a sequence of frame ticks from a ship state. -/
noncomputable def runTicks (s : Ship) : List Tick → Ship
  | [] => s
  | t :: ts => runTicks (tick t s) ts

/-- Every tick of a schedule has a nonnegative elapsed time. -/
def nonnegDts (ts : List Tick) : Prop :=
  ∀ t ∈ ts, 0 ≤ t.dt

/-- Wraparound as the spec words it (spec §4.2), for the refinement claim:
if a coordinate exceeds `+half`, subtract the full dimension; if it falls
below `-half`, add the full dimension. -/
noncomputable def wrap_spec (dim x : ℝ) : ℝ :=
  if x > dim / 2 then x - dim
  else if x < -dim / 2 then x + dim
  else x

/-! ## Claim theorems -/

/-- C1 counterexample: with both turn signals active the heading is NOT
left unchanged — the source's `else if` gives the Left key priority, so
with `dt = 1` the initial ship turns from heading 0 to heading 1. -/
theorem c1_counterexample :
    (rotate_ship_system 1 { left := true, right := true, up := false } ship0).heading ≠
      ship0.heading := by
  simp only [rotate_ship_system, ship0]
  norm_num

/-- C1 (amended): with neither turn signal active the Orientation update
leaves the heading unchanged; with both active it behaves exactly as
`turnLeft` alone, increasing the heading by `rotationSpeed * dt`. -/
theorem c1_rotate_both_neither (dt : ℝ) (u : Bool) (s : Ship) :
    (rotate_ship_system dt { left := false, right := false, up := u } s).heading = s.heading ∧
    (rotate_ship_system dt { left := true, right := true, up := u } s).heading =
      s.heading + s.rotation_speed * dt := by
  constructor
  · simp [rotate_ship_system]
  · simp only [rotate_ship_system]
    simp
    ring

/-- C6: for every `dt ≥ 0` and every ship state, the Orientation update
with only `turnLeft` active increases the heading by exactly
`rotationSpeed * dt` (hence also modulo 2π), and with only `turnRight`
active decreases it by exactly `rotationSpeed * dt`. -/
theorem c6_rotate_exact (dt : ℝ) (u : Bool) (s : Ship) (hdt : 0 ≤ dt) :
    (rotate_ship_system dt { left := true, right := false, up := u } s).heading =
      s.heading + s.rotation_speed * dt ∧
    (rotate_ship_system dt { left := false, right := true, up := u } s).heading =
      s.heading - s.rotation_speed * dt := by
  simp only [rotate_ship_system]
  constructor
  · simp; ring
  · simp; ring

/-- C6 witness: at `dt = 1` on the initial ship, a left turn moves the
heading to 1 and a right turn to -1. -/
theorem c6_witness :
    (0 : ℝ) ≤ 1 ∧
    (rotate_ship_system 1 { left := true, right := false, up := false } ship0).heading = 1 ∧
    (rotate_ship_system 1 { left := false, right := true, up := false } ship0).heading = -1 := by
  have h := c6_rotate_exact 1 false ship0 (by norm_num)
  refine ⟨by norm_num, ?_, ?_⟩
  · rw [h.1]; simp [ship0]
  · rw [h.2]; simp [ship0]

/-- C10: each system mutates only its designated fields: the Orientation
update never changes position, velocity or fuel; the Position update never
changes heading, velocity or fuel; the Propulsion update never changes
position or heading. -/
theorem c10_frame_conditions (dt w h : ℝ) (inp : Inputs) (s : Ship) :
    ((rotate_ship_system dt inp s).px = s.px ∧
     (rotate_ship_system dt inp s).py = s.py ∧
     (rotate_ship_system dt inp s).vx = s.vx ∧
     (rotate_ship_system dt inp s).vy = s.vy ∧
     (rotate_ship_system dt inp s).fuel = s.fuel) ∧
    ((velocity_system dt w h s).heading = s.heading ∧
     (velocity_system dt w h s).vx = s.vx ∧
     (velocity_system dt w h s).vy = s.vy ∧
     (velocity_system dt w h s).fuel = s.fuel) ∧
    ((engine_system dt inp s).px = s.px ∧
     (engine_system dt inp s).py = s.py ∧
     (engine_system dt inp s).heading = s.heading) := by
  refine ⟨?_, ?_, ?_⟩
  · unfold rotate_ship_system
    split_ifs <;> simp
  · unfold velocity_system
    simp
  · unfold engine_system
    split_ifs <;> simp

/-- One-axis wrap bound: starting inside `[-w/2, w/2]` and displacing by
at most one full dimension in either direction, the single-step wrap of
the source lands back inside `[-w/2, w/2]`. -/
theorem wrap_axis_mem (w p d : ℝ) (hp1 : -w / 2 ≤ p) (hp2 : p ≤ w / 2)
    (hd1 : -w ≤ d) (hd2 : d ≤ w) :
    -w / 2 ≤ (if p + d < -w / 2 then p + d + w
              else if p + d > w / 2 then p + d - w else p + d) ∧
    (if p + d < -w / 2 then p + d + w
     else if p + d > w / 2 then p + d - w else p + d) ≤ w / 2 := by
  split_ifs with h1 h2
  · constructor <;> linarith
  · constructor <;> linarith
  · constructor <;> linarith

/-- C7: for every position, velocity, tick and nonnegative window extent,
the Position update is exactly `position += velocity * dt` followed by the
spec's independent per-axis single-step wraparound. -/
theorem c7_velocity_refines_wrap (dt w h : ℝ) (s : Ship) (hw : 0 ≤ w) (hh : 0 ≤ h) :
    velocity_system dt w h s =
      { s with px := wrap_spec w (s.px + s.vx * dt),
               py := wrap_spec h (s.py + s.vy * dt) } := by
  unfold velocity_system wrap_spec
  ext <;> simp only [] <;> split_ifs <;> first | rfl | linarith

/-- C7 witness: on the initial ship in an 800 × 600 window with `dt = 1`,
the Position update agrees with advance-then-wrap. -/
theorem c7_witness :
    (0 : ℝ) ≤ 800 ∧ (0 : ℝ) ≤ 600 ∧
    velocity_system 1 800 600 ship0 =
      { ship0 with px := wrap_spec 800 (ship0.px + ship0.vx * 1),
                   py := wrap_spec 600 (ship0.py + ship0.vy * 1) } :=
  ⟨by norm_num, by norm_num,
   c7_velocity_refines_wrap 1 800 600 ship0 (by norm_num) (by norm_num)⟩

/-- C2 counterexample: the claim fails for a position far outside the
screen: in a 100 × 100 window, a resting ship (`displacement 0 ≤ 100` on
both axes) at `x = 1000` is wrapped once to `x = 900`, still far outside
`[-50, 50]`. -/
theorem c2_counterexample :
    -(100 : ℝ) ≤ ({ ship0 with px := 1000 } : Ship).vx * 1 ∧
    ({ ship0 with px := 1000 } : Ship).vx * 1 ≤ 100 ∧
    -(100 : ℝ) ≤ ({ ship0 with px := 1000 } : Ship).vy * 1 ∧
    ({ ship0 with px := 1000 } : Ship).vy * 1 ≤ 100 ∧
    ¬ (velocity_system 1 100 100 { ship0 with px := 1000 }).px ≤ 100 / 2 := by
  refine ⟨by norm_num [ship0], by norm_num [ship0], by norm_num [ship0],
          by norm_num [ship0], ?_⟩
  simp only [velocity_system, ship0]
  norm_num

/-- C2 (amended): whenever the pre-update position already lies inside the
screen rectangle and the per-axis displacement of the tick is at most one
full screen dimension, the Position update lands back inside
`[-w/2, w/2] × [-h/2, h/2]`. -/
theorem c2_wrap_in_range (dt w h : ℝ) (s : Ship)
    (hx1 : -w / 2 ≤ s.px) (hx2 : s.px ≤ w / 2)
    (hy1 : -h / 2 ≤ s.py) (hy2 : s.py ≤ h / 2)
    (hdx1 : -w ≤ s.vx * dt) (hdx2 : s.vx * dt ≤ w)
    (hdy1 : -h ≤ s.vy * dt) (hdy2 : s.vy * dt ≤ h) :
    -w / 2 ≤ (velocity_system dt w h s).px ∧ (velocity_system dt w h s).px ≤ w / 2 ∧
    -h / 2 ≤ (velocity_system dt w h s).py ∧ (velocity_system dt w h s).py ≤ h / 2 := by
  have hx := wrap_axis_mem w s.px (s.vx * dt) hx1 hx2 hdx1 hdx2
  have hy := wrap_axis_mem h s.py (s.vy * dt) hy1 hy2 hdy1 hdy2
  unfold velocity_system
  exact ⟨hx.1, hx.2, hy.1, hy.2⟩

/-- C2 witness: the initial ship in an 800 × 600 window with `dt = 1`
satisfies the preconditions and stays inside the rectangle. -/
theorem c2_witness :
    -(800 : ℝ) / 2 ≤ ship0.px ∧ ship0.px ≤ 800 / 2 ∧
    -(600 : ℝ) / 2 ≤ ship0.py ∧ ship0.py ≤ 600 / 2 ∧
    -(800 : ℝ) ≤ ship0.vx * 1 ∧ ship0.vx * 1 ≤ 800 ∧
    -(600 : ℝ) ≤ ship0.vy * 1 ∧ ship0.vy * 1 ≤ 600 ∧
    (-(800 : ℝ) / 2 ≤ (velocity_system 1 800 600 ship0).px ∧
     (velocity_system 1 800 600 ship0).px ≤ 800 / 2 ∧
     -(600 : ℝ) / 2 ≤ (velocity_system 1 800 600 ship0).py ∧
     (velocity_system 1 800 600 ship0).py ≤ 600 / 2) := by
  refine ⟨by norm_num [ship0], by norm_num [ship0], by norm_num [ship0],
          by norm_num [ship0], by norm_num [ship0], by norm_num [ship0],
          by norm_num [ship0], by norm_num [ship0], ?_⟩
  exact c2_wrap_in_range 1 800 600 ship0 (by norm_num [ship0]) (by norm_num [ship0])
    (by norm_num [ship0]) (by norm_num [ship0]) (by norm_num [ship0])
    (by norm_num [ship0]) (by norm_num [ship0]) (by norm_num [ship0])

/-- C3 counterexample: with a zero-width, zero-height window (non-positive
dimensions) and unit x-velocity, the Position update still moves the ship
from `x = 0` to `x = 1` — the position is NOT left unmodified. -/
theorem c3_counterexample :
    (velocity_system 1 0 0 { ship0 with vx := 1 }).px ≠
      ({ ship0 with vx := 1 } : Ship).px := by
  simp only [velocity_system, ship0]
  norm_num

/-- C3 (amended): the Position update does not special-case non-positive
window dimensions; it performs the same advance-and-wrap computation. In
particular with zero dimensions the wrap adds or subtracts 0, so the
position simply advances by `velocity * dt` rather than being left
unmodified. -/
theorem c3_zero_dims_advance (dt : ℝ) (s : Ship) :
    (velocity_system dt 0 0 s).px = s.px + s.vx * dt ∧
    (velocity_system dt 0 0 s).py = s.py + s.vy * dt := by
  unfold velocity_system
  constructor <;> (simp only []; split_ifs <;> ring)

/-- C9 counterexample: with velocity `(0, 0)` but a position outside the
10 × 10 screen, the update is not the identity: the single-step wrap moves
`x = 100` to `x = 90`. -/
theorem c9_counterexample :
    (velocity_system 1 10 10 { ship0 with px := 100 }).px ≠
      ({ ship0 with px := 100 } : Ship).px := by
  simp only [velocity_system, ship0]
  norm_num

/-- C9 (amended): with velocity `(0, 0)` and a pre-update position inside
the screen rectangle, the Position update is the identity on position. -/
theorem c9_zero_velocity_identity (dt w h : ℝ) (s : Ship)
    (hvx : s.vx = 0) (hvy : s.vy = 0)
    (hx1 : -w / 2 ≤ s.px) (hx2 : s.px ≤ w / 2)
    (hy1 : -h / 2 ≤ s.py) (hy2 : s.py ≤ h / 2) :
    (velocity_system dt w h s).px = s.px ∧ (velocity_system dt w h s).py = s.py := by
  unfold velocity_system
  simp only [hvx, hvy, zero_mul, add_zero]
  constructor <;> (split_ifs <;> first | rfl | linarith)

/-- C9 witness: the initial resting ship at the origin of an 800 × 600
window keeps its position. -/
theorem c9_witness :
    ship0.vx = 0 ∧ ship0.vy = 0 ∧
    -(800 : ℝ) / 2 ≤ ship0.px ∧ ship0.px ≤ 800 / 2 ∧
    -(600 : ℝ) / 2 ≤ ship0.py ∧ ship0.py ≤ 600 / 2 ∧
    (velocity_system 1 800 600 ship0).px = ship0.px ∧
    (velocity_system 1 800 600 ship0).py = ship0.py := by
  refine ⟨by norm_num [ship0], by norm_num [ship0], by norm_num [ship0],
          by norm_num [ship0], by norm_num [ship0], by norm_num [ship0], ?_⟩
  exact c9_zero_velocity_identity 1 800 600 ship0 (by norm_num [ship0])
    (by norm_num [ship0]) (by norm_num [ship0]) (by norm_num [ship0])
    (by norm_num [ship0]) (by norm_num [ship0])

/-- C5: when thrust is active and fuel is positive, the Propulsion update
adds `thrustPower * dt * (-sin heading, cos heading)` to the velocity and
subtracts `thrustPower * dt` from the fuel, clamping the result to
`[0, 1000]`. -/
theorem c5_engine_thrust (dt : ℝ) (l r : Bool) (s : Ship) (hf : 0 < s.fuel) :
    (engine_system dt { left := l, right := r, up := true } s).vx =
      s.vx + s.thrust * dt * -Real.sin s.heading ∧
    (engine_system dt { left := l, right := r, up := true } s).vy =
      s.vy + s.thrust * dt * Real.cos s.heading ∧
    (engine_system dt { left := l, right := r, up := true } s).fuel =
      clamp (s.fuel - s.thrust * dt) 0 1000 := by
  unfold engine_system
  rw [if_pos ⟨rfl, hf⟩]
  refine ⟨?_, rfl, rfl⟩
  simp only []
  ring

/-- C5 witness (the spec's scenario): heading 0, fuel 100, thrust 100,
ship at rest, `dt = 1` — the velocity becomes `(0, 100)` and the fuel is
clamped to 0. -/
theorem c5_witness :
    0 < ship0.fuel ∧
    (engine_system 1 { left := false, right := false, up := true } ship0).vx = 0 ∧
    (engine_system 1 { left := false, right := false, up := true } ship0).vy = 100 ∧
    (engine_system 1 { left := false, right := false, up := true } ship0).fuel = 0 := by
  have h := c5_engine_thrust 1 false false ship0 (by norm_num [ship0])
  refine ⟨by norm_num [ship0], ?_, ?_, ?_⟩
  · rw [h.1]; simp [ship0]
  · rw [h.2.1]; simp [ship0]
  · rw [h.2.2]; simp [ship0, clamp]

/-- C8: when thrust is not active, or fuel is not positive (in particular
at `fuel = 0` with thrust held), the Propulsion update leaves the whole
ship state — in particular velocity and fuel — unchanged. -/
theorem c8_no_thrust_no_change (dt : ℝ) (inp : Inputs) (s : Ship)
    (hc : inp.up = false ∨ s.fuel ≤ 0) :
    engine_system dt inp s = s := by
  unfold engine_system
  rcases hc with hc | hc
  · rw [if_neg]
    intro hcon
    rw [hc] at hcon
    exact Bool.false_ne_true (congrArg (fun b => b) hcon.1)
  · rw [if_neg]
    intro hcon
    exact absurd hcon.2 (not_lt.mpr hc)

/-- C8 witness: with the tank empty and the Up key held, the update at
`dt = 1` leaves the ship unchanged. -/
theorem c8_witness :
    ({ ship0 with fuel := 0 } : Ship).fuel ≤ 0 ∧
    engine_system 1 { left := false, right := false, up := true } { ship0 with fuel := 0 } =
      { ship0 with fuel := 0 } :=
  ⟨by norm_num [ship0],
   c8_no_thrust_no_change 1 { left := false, right := false, up := true }
     { ship0 with fuel := 0 } (Or.inr (by norm_num [ship0]))⟩

/-- The Orientation and Position updates touch neither fuel nor thrust. -/
theorem rotate_velocity_fuel_thrust (dt w h : ℝ) (inp : Inputs) (s : Ship) :
    (velocity_system dt w h (rotate_ship_system dt inp s)).fuel = s.fuel ∧
    (velocity_system dt w h (rotate_ship_system dt inp s)).thrust = s.thrust := by
  unfold rotate_ship_system velocity_system
  split_ifs <;> simp

/-- Propulsion fuel step: with `dt ≥ 0` and nonnegative thrust, one
`engine_system` step keeps fuel inside `[0, 1000]` and never raises it. -/
theorem engine_fuel_step (dt : ℝ) (inp : Inputs) (s : Ship)
    (hdt : 0 ≤ dt) (hth : 0 ≤ s.thrust) (h0 : 0 ≤ s.fuel) (h1 : s.fuel ≤ 1000) :
    (engine_system dt inp s).fuel ≤ s.fuel ∧
    0 ≤ (engine_system dt inp s).fuel ∧ (engine_system dt inp s).fuel ≤ 1000 ∧
    (engine_system dt inp s).thrust = s.thrust := by
  have hburn : 0 ≤ s.thrust * dt := mul_nonneg hth hdt
  unfold engine_system clamp
  split_ifs with hc hlo hhi
  · refine ⟨?_, ?_, ?_, rfl⟩ <;> simp <;> linarith
  · refine ⟨?_, ?_, ?_, rfl⟩ <;> simp <;> linarith
  · refine ⟨?_, ?_, ?_, rfl⟩ <;> simp <;> linarith
  · exact ⟨le_refl _, h0, h1, rfl⟩

/-- One full frame keeps fuel inside `[0, 1000]`, never raises it, and
leaves the thrust configuration untouched. -/
theorem tick_fuel_step (t : Tick) (s : Ship)
    (hdt : 0 ≤ t.dt) (hth : 0 ≤ s.thrust) (h0 : 0 ≤ s.fuel) (h1 : s.fuel ≤ 1000) :
    (tick t s).fuel ≤ s.fuel ∧
    0 ≤ (tick t s).fuel ∧ (tick t s).fuel ≤ 1000 ∧ (tick t s).thrust = s.thrust := by
  have hrv := rotate_velocity_fuel_thrust t.dt t.w t.h t.inp s
  have he := engine_fuel_step t.dt t.inp
    (velocity_system t.dt t.w t.h (rotate_ship_system t.dt t.inp s)) hdt
    (hrv.2 ▸ hth) (hrv.1 ▸ h0) (hrv.1 ▸ h1)
  unfold tick
  exact ⟨hrv.1 ▸ he.1, he.2.1, he.2.2.1, hrv.2 ▸ he.2.2.2⟩

/-- Running any schedule of nonnegative-`dt` ticks keeps fuel inside
`[0, 1000]`, never raises it, and preserves the thrust configuration. -/
theorem runTicks_fuel (ts : List Tick) : ∀ s : Ship, nonnegDts ts →
    0 ≤ s.thrust → 0 ≤ s.fuel → s.fuel ≤ 1000 →
    (runTicks s ts).fuel ≤ s.fuel ∧
    0 ≤ (runTicks s ts).fuel ∧ (runTicks s ts).fuel ≤ 1000 ∧
    (runTicks s ts).thrust = s.thrust := by
  induction ts with
  | nil => intro s _ _ h0 h1; exact ⟨le_refl _, h0, h1, rfl⟩
  | cons t ts ih =>
    intro s hnn hth h0 h1
    have hdt : 0 ≤ t.dt := hnn t (List.mem_cons_self t ts)
    have hstep := tick_fuel_step t s hdt hth h0 h1
    have hrest := ih (tick t s) (fun u hu => hnn u (List.mem_cons_of_mem t hu))
      (hstep.2.2.2 ▸ hth) hstep.2.1 hstep.2.2.1
    exact ⟨le_trans hrest.1 hstep.1, hrest.2.1, hrest.2.2.1,
           hrest.2.2.2.trans hstep.2.2.2⟩

/-- Running an extended schedule runs the extension from the prefix's
final state. -/
theorem runTicks_append (ts ts' : List Tick) : ∀ s : Ship,
    runTicks s (ts ++ ts') = runTicks (runTicks s ts) ts' := by
  induction ts with
  | nil => intro s; rfl
  | cons t ts ih => intro s; simpa [runTicks] using ih (tick t s)

/-- C4: along any schedule of ticks with nonnegative elapsed times,
starting from the initial ship (fuel 100), the fuel after any prefix lies
in `[0, 1000]` — in particular fuel ≥ 0 — and extending the schedule never
increases it, so fuel is monotonically non-increasing from tick to tick. -/
theorem c4_fuel_invariant (ts ts' : List Tick) (hnn : nonnegDts (ts ++ ts')) :
    0 ≤ (runTicks ship0 ts).fuel ∧ (runTicks ship0 ts).fuel ≤ 1000 ∧
    (runTicks ship0 (ts ++ ts')).fuel ≤ (runTicks ship0 ts).fuel := by
  have hpre : nonnegDts ts := fun t ht => hnn t (List.mem_append_left ts' ht)
  have h1 := runTicks_fuel ts ship0 hpre (by norm_num [ship0])
    (by norm_num [ship0]) (by norm_num [ship0])
  have h2 := runTicks_fuel ts' (runTicks ship0 ts)
    (fun t ht => hnn t (List.mem_append_right ts ht))
    (by rw [h1.2.2.2]; norm_num [ship0]) h1.2.1 h1.2.2.1
  exact ⟨h1.2.1, h1.2.2.1, by rw [runTicks_append]; exact h2.1⟩

/-- C4 witness: two one-second full-thrust frames in an 800 × 600 window;
after the first frame fuel is in range and the second frame does not
increase it. -/
theorem c4_witness :
    nonnegDts ([⟨1, 800, 600, ⟨false, false, true⟩⟩] ++
               [⟨1, 800, 600, ⟨false, false, true⟩⟩]) ∧
    (0 ≤ (runTicks ship0 [⟨1, 800, 600, ⟨false, false, true⟩⟩]).fuel ∧
     (runTicks ship0 [⟨1, 800, 600, ⟨false, false, true⟩⟩]).fuel ≤ 1000 ∧
     (runTicks ship0 ([⟨1, 800, 600, ⟨false, false, true⟩⟩] ++
                      [⟨1, 800, 600, ⟨false, false, true⟩⟩])).fuel ≤
       (runTicks ship0 [⟨1, 800, 600, ⟨false, false, true⟩⟩]).fuel) := by
  have hnn : nonnegDts ([⟨1, 800, 600, ⟨false, false, true⟩⟩] ++
      [⟨1, 800, 600, ⟨false, false, true⟩⟩]) := by
    intro t ht
    simp only [nonnegDts, List.cons_append, List.nil_append, List.mem_cons,
      List.not_mem_nil, or_false] at ht
    rcases ht with ht | ht <;> (rw [ht]; norm_num)
  exact ⟨hnn, c4_fuel_invariant _ _ hnn⟩
